import Mathlib

set_option maxRecDepth 100000

/- `Rat`'s arithmetic is `@[irreducible]` by default, which blocks the
`decide`/`rfl` evaluation of the concrete witness computations below;
restore ordinary unfolding for it. -/
set_option allowUnsafeReducibility true

attribute [semireducible] Rat.add Rat.sub Rat.mul Rat.inv Nat.gcd

/-!
# Verification of the BLE ECG acquisition-to-analysis pipeline

Shallow embedding of the core pipeline of the repository (files
`main2.py` and `ecg_plot_demo.py`): the bounded sample buffer
(a `collections.deque` with `maxlen`), the peak-detection / heart-rate
estimator, the BLE notification handler, the device scanner / session
start, the plot-update tick, and the shutdown event.

Python floats are modelled as exact rationals (`ℚ`); buffer samples from
`main2.py` are `ℤ` (the handler only ever appends `int(message)` values).
-/

namespace BLE

/-! ## Sample buffer: `collections.deque(maxlen := n)`

`ecg_data = deque([0]*MAX_POINTS, maxlen=MAX_POINTS)` (main2.py line 29);
`self.ecg_data = deque(maxlen=PLOT_WINDOW_SIZE)` (ecg_plot_demo.py line 26).
The buffer is the list of samples, oldest first.  `deque.append` at
capacity silently evicts the oldest (leftmost) element; we model it as
keeping the last `maxlen` elements of `buf ++ [x]`. -/

/-- The last `n` elements of a list (all of it when it is shorter). -/
def takeLast (n : ℕ) (l : List α) : List α := l.drop (l.length - n)

/-- `deque.append x` on a deque with `maxlen = n`: append on the right,
silently evicting from the left whenever the capacity is exceeded.
Total: it never errors. -/
def dequeAppend (n : ℕ) (buf : List α) (x : α) : List α :=
  takeLast n (buf ++ [x])

/-! ## Constants of `main2.py` (lines 21, 26-29) -/

def ESP32_DEVICE_NAME : String := "ESP32"

def SAMPLING_RATE : ℕ := 50

def WINDOW_SECONDS : ℕ := 5

def MAX_POINTS : ℕ := SAMPLING_RATE * WINDOW_SECONDS

/-- `ecg_data = deque([0]*MAX_POINTS, maxlen=MAX_POINTS)` (main2.py line 29). -/
def ecg_data_init : List ℤ := List.replicate MAX_POINTS 0

/-! ## Peak/rate estimator: `ECGPlotter.calculate_heart_rate`
(ecg_plot_demo.py lines 65-92) -/

/-- `np.mean` of a list of rationals (sum divided by length). -/
def npMean (l : List ℚ) : ℚ := l.sum / l.length

/-- `np.std l ^ 2`: the population variance, mean of squared deviations.
`np.std` itself is the square root of this; the peak test below compares
against the variance so as to stay inside `ℚ` (see `peak_threshold_iff`). -/
def npVar (l : List ℚ) : ℚ := ((l.map (fun x => (x - npMean l) ^ 2)).sum) / l.length

/-- The peak test of lines 79-81, for the sample at index `i`:
`data[i] > threshold and data[i] > data[i-1] and data[i] > data[i+1]`
with `threshold = mean + 0.5 * std` (line 75).  Because
`std = sqrt variance ≥ 0`, the first conjunct is equivalent to
`data[i] - mean > 0 ∧ 4 * (data[i] - mean)^2 > variance`, which is the
form used here so the test is exact rational arithmetic; the lemma
`peak_threshold_iff` below proves the equivalence with the
`mean + 0.5·sqrt variance` formulation over `ℝ`. -/
def isPeak (μ v : ℚ) (data : List ℚ) (i : ℕ) : Bool :=
  let d : ℚ := data.getD i 0 - μ
  decide (0 < d) && decide (v < 4 * d ^ 2) &&
    decide (data.getD (i - 1) 0 < data.getD i 0) &&
    decide (data.getD (i + 1) 0 < data.getD i 0)

/-- The loop of lines 78-82: indices `i` in `range(1, len(data)-1)` that
pass the peak test, in increasing order. -/
def peakIndices (data : List ℚ) : List ℕ :=
  let μ := npMean data
  let v := npVar data
  (List.range' 1 (data.length - 2)).filter (isPeak μ v data)

/-- `peaks`: the timestamps `time_array[i]` of the peak indices, in
chronological (index) order (line 82). -/
def peakTimes (data times : List ℚ) : List ℚ :=
  (peakIndices data).map (fun i => times.getD i 0)

/-- `np.diff`: consecutive differences of a list. -/
def npDiff (l : List ℚ) : List ℚ :=
  List.zipWith (fun a b => b - a) l l.tail

/-- Python `int()` applied to a rational: truncation toward zero. -/
def truncQ (q : ℚ) : ℤ := Int.tdiv q.num q.den

/-- Result of `calculate_heart_rate`: `None`, an integer rate, or an
uncaught runtime exception escaping the method. -/
inductive HRResult where
  | noRate : HRResult
  | bpm : ℤ → HRResult
  | raised : HRResult
deriving DecidableEq, Repr

/-- `ECGPlotter.calculate_heart_rate` (ecg_plot_demo.py lines 65-92).
Guard: fewer than 100 samples returns `None`.  Then peaks are collected;
with at least 2 peaks and a nonempty interval list the method returns
`int(60.0 / avg_interval)`.  When `avg_interval` is `0.0` (duplicate peak
timestamps), the float division `60.0 / 0.0` yields `inf` and `int(inf)`
raises `OverflowError`, which no `except` in the method catches: modelled
as `.raised`. -/
def calculate_heart_rate (data times : List ℚ) : HRResult :=
  if data.length < 100 then .noRate
  else
    let peaks := peakTimes data times
    if peaks.length ≥ 2 then
      let intervals := npDiff peaks
      if intervals.length > 0 then
        let avg := npMean intervals
        if avg = 0 then .raised
        else .bpm (truncQ (60 / avg))
      else .noRate
    else .noRate

/-- The call site of the estimator in `ECGPlotter.update_plot`
(ecg_plot_demo.py line 106): it reads `self.ecg_data` and
`self.time_data` and returns a rate; the state is passed through —
the method performs no write to either deque. -/
def estimatorTick (st : List ℚ × List ℚ) : (List ℚ × List ℚ) × HRResult :=
  (st, calculate_heart_rate st.1 st.2)

/-! ## Notification handler: `BLEReceiver.notification_handler`
(main2.py lines 55-64) -/

/-- The codepoints Python's `str.isspace()` holds on — the set
`str.strip()` removes (CPython 3.11 Unicode database). -/
def pySpaceCodes : List ℕ := [
  0x9, 0xA, 0xB, 0xC, 0xD, 0x1C, 0x1D, 0x1E, 0x1F, 0x20,
  0x85, 0xA0, 0x1680, 0x2000, 0x2001, 0x2002, 0x2003, 0x2004, 0x2005, 0x2006,
  0x2007, 0x2008, 0x2009, 0x200A, 0x2028, 0x2029, 0x202F, 0x205F, 0x3000]

/-- Python's per-character `str.isspace()` test. -/
def pyIsSpaceChar (c : Char) : Bool := pySpaceCodes.contains c.toNat

/-- The codepoint ranges on which Python's `str.isdigit()` holds:
characters of Numeric_Type Decimal or Digit (CPython 3.11 Unicode
database). -/
def pyDigitRanges : List (ℕ × ℕ) := [
  (0x30, 0x39), (0xB2, 0xB3), (0xB9, 0xB9), (0x660, 0x669), (0x6F0, 0x6F9),
  (0x7C0, 0x7C9), (0x966, 0x96F), (0x9E6, 0x9EF), (0xA66, 0xA6F), (0xAE6, 0xAEF),
  (0xB66, 0xB6F), (0xBE6, 0xBEF), (0xC66, 0xC6F), (0xCE6, 0xCEF), (0xD66, 0xD6F),
  (0xDE6, 0xDEF), (0xE50, 0xE59), (0xED0, 0xED9), (0xF20, 0xF29), (0x1040, 0x1049),
  (0x1090, 0x1099), (0x1369, 0x1371), (0x17E0, 0x17E9), (0x1810, 0x1819), (0x1946, 0x194F),
  (0x19D0, 0x19DA), (0x1A80, 0x1A89), (0x1A90, 0x1A99), (0x1B50, 0x1B59), (0x1BB0, 0x1BB9),
  (0x1C40, 0x1C49), (0x1C50, 0x1C59), (0x2070, 0x2070), (0x2074, 0x2079), (0x2080, 0x2089),
  (0x2460, 0x2468), (0x2474, 0x247C), (0x2488, 0x2490), (0x24EA, 0x24EA), (0x24F5, 0x24FD),
  (0x24FF, 0x24FF), (0x2776, 0x277E), (0x2780, 0x2788), (0x278A, 0x2792), (0xA620, 0xA629),
  (0xA8D0, 0xA8D9), (0xA900, 0xA909), (0xA9D0, 0xA9D9), (0xA9F0, 0xA9F9), (0xAA50, 0xAA59),
  (0xABF0, 0xABF9), (0xFF10, 0xFF19), (0x104A0, 0x104A9), (0x10A40, 0x10A43), (0x10D30, 0x10D39),
  (0x10E60, 0x10E68), (0x11052, 0x1105A), (0x11066, 0x1106F), (0x110F0, 0x110F9), (0x11136, 0x1113F),
  (0x111D0, 0x111D9), (0x112F0, 0x112F9), (0x11450, 0x11459), (0x114D0, 0x114D9), (0x11650, 0x11659),
  (0x116C0, 0x116C9), (0x11730, 0x11739), (0x118E0, 0x118E9), (0x11950, 0x11959), (0x11C50, 0x11C59),
  (0x11D50, 0x11D59), (0x11DA0, 0x11DA9), (0x16A60, 0x16A69), (0x16AC0, 0x16AC9), (0x16B50, 0x16B59),
  (0x1D7CE, 0x1D7FF), (0x1E140, 0x1E149), (0x1E2F0, 0x1E2F9), (0x1E950, 0x1E959), (0x1F100, 0x1F10A),
  (0x1FBF0, 0x1FBF9)]

/-- Python's per-character `str.isdigit()` test. -/
def pyIsDigitChar (c : Char) : Bool :=
  pyDigitRanges.any (fun p => decide (p.1 ≤ c.toNat) && decide (c.toNat ≤ p.2))

/-- Bases of the decimal-digit decades: `int()` accepts exactly the
characters `b + k` (`0 ≤ k ≤ 9`, digit value `k`) for `b` in this list
(CPython 3.11 Unicode database; Numeric_Type Decimal).  `str.isdigit()`
is strictly wider — e.g. superscript two, `U+00B2`, passes `isdigit`
but has no decimal value, so `int()` raises `ValueError` on it. -/
def pyDecimalBases : List ℕ := [
  0x30, 0x660, 0x6F0, 0x7C0, 0x966, 0x9E6, 0xA66, 0xAE6, 0xB66, 0xBE6,
  0xC66, 0xCE6, 0xD66, 0xDE6, 0xE50, 0xED0, 0xF20, 0x1040, 0x1090, 0x17E0,
  0x1810, 0x1946, 0x19D0, 0x1A80, 0x1A90, 0x1B50, 0x1BB0, 0x1C40, 0x1C50, 0xA620,
  0xA8D0, 0xA900, 0xA9D0, 0xA9F0, 0xAA50, 0xABF0, 0xFF10, 0x104A0, 0x10D30, 0x11066,
  0x110F0, 0x11136, 0x111D0, 0x112F0, 0x11450, 0x114D0, 0x11650, 0x116C0, 0x11730, 0x118E0,
  0x11950, 0x11C50, 0x11D50, 0x11DA0, 0x16A60, 0x16AC0, 0x16B50, 0x1D7CE, 0x1D7D8, 0x1D7E2,
  0x1D7EC, 0x1D7F6, 0x1E140, 0x1E2F0, 0x1E950, 0x1FBF0]

/-- Leading-whitespace removal on a character list (Python whitespace). -/
def dropLeadWS : List Char → List Char
  | [] => []
  | c :: cs => if pyIsSpaceChar c then dropLeadWS cs else c :: cs

/-- Python `str.strip()`: remove leading and trailing whitespace (the
full `str.isspace()` set, e.g. also form feed `U+000C` and no-break
space `U+00A0`). -/
def pyStrip (s : String) : String :=
  String.mk ((dropLeadWS ((dropLeadWS s.toList).reverse)).reverse)

/-- Python `str.isdigit()`: nonempty and every character of digit class
(decimal digits of any script, plus digit-valued characters such as
superscripts). -/
def pyIsDigit (s : String) : Bool :=
  !s.isEmpty && s.toList.all pyIsDigitChar

/-- The decimal value `int()` assigns to a character, when it has one:
its offset in its decimal decade. -/
def pyDecimalVal? (c : Char) : Option ℕ :=
  (pyDecimalBases.find? (fun b => decide (b ≤ c.toNat) && decide (c.toNat ≤ b + 9))).map
    (fun b => c.toNat - b)

/-- Python `int()` on a string that passed `isdigit()`: the base-10
value of the decimal digit values when every character has one, `none`
(a raised `ValueError`) when some digit-class character has no decimal
value (e.g. a superscript). -/
def pyInt? (s : String) : Option ℕ :=
  s.toList.foldl
    (fun acc c =>
      match acc, pyDecimalVal? c with
      | some a, some d => some (10 * a + d)
      | _, _ => none)
    (some 0)

/-- `BLEReceiver.notification_handler` (main2.py lines 55-64), as a
transformer of the `ecg_data` buffer.  The payload is `some s` when the
bytes decode as UTF-8 to `s`, `none` when `data.decode('utf-8')` raises
(the `except` logs and leaves the buffer unchanged).  A decoded message
is stripped; if `isdigit()` holds, `int(message)` is computed — it
succeeds on decimal digits of any script and its value is appended to
`ecg_data` (a deque with `maxlen = MAX_POINTS`), while on a digit-class
message containing a non-decimal character it raises `ValueError`,
which the same `except` catches, leaving the buffer unchanged.  No
exception ever escapes the handler: the model is a total function. -/
def notification_handler (buf : List ℤ) (payload : Option String) : List ℤ :=
  match payload with
  | none => buf
  | some s =>
    let message := pyStrip s
    if pyIsDigit message then
      match pyInt? message with
      | some v => dequeAppend MAX_POINTS buf (v : ℤ)
      | none => buf
    else buf

/-! ## Device scan: `BLEReceiver.scan_for_esp32` (main2.py lines 44-53)
and the start of `connect_and_receive` (lines 66-80) -/

/-- A discovered BLE device record, as used by the scan loop: only the
`name` (which `bleak` may report as `None`) and the address matter. -/
structure Device where
  name : Option String
  address : String
deriving DecidableEq, Repr

/-- Does `pat` occur at the head of `l`? (helper for substring search) -/
def leadMatch : List Char → List Char → Bool
  | [], _ => true
  | _ :: _, [] => false
  | p :: ps, c :: cs => p == c && leadMatch ps cs

/-- Does `pat` occur contiguously anywhere in `l`? -/
def charsHave (pat : List Char) : List Char → Bool
  | [] => pat.isEmpty
  | c :: cs => leadMatch pat (c :: cs) || charsHave pat cs

/-- Python `pat in s`: contiguous substring containment. -/
def pyContains (s pat : String) : Bool := charsHave pat.toList s.toList

/-- The match test of line 49: `device.name and ESP32_DEVICE_NAME in
device.name`.  A `None` name and an empty name are both falsy in Python,
so neither matches. -/
def nameMatches (d : Device) : Bool :=
  match d.name with
  | none => false
  | some s => !s.isEmpty && pyContains s ESP32_DEVICE_NAME

/-- The scan loop of lines 47-53: walk the discovered records in
discovery order, return the first whose name matches, else `None`. -/
def scan_for_esp32 : List Device → Option Device
  | [] => none
  | d :: rest => if nameMatches d then some d else scan_for_esp32 rest

/-- Outcome of the scan phase of `connect_and_receive`
(main2.py lines 66-74): either the session fails without any connection
attempt (`return False` on line 71), or it proceeds to construct a
`BleakClient` for the selected device and connect. -/
inductive ScanOutcome where
  | failed : ScanOutcome
  | connecting : Device → ScanOutcome
deriving DecidableEq, Repr

/-- Lines 68-74 of `connect_and_receive`: scan, and on `None` fail
without connecting; otherwise move on to connecting to the device. -/
def sessionAfterScan (devices : List Device) : ScanOutcome :=
  match scan_for_esp32 devices with
  | none => .failed
  | some d => .connecting d

/-! ## Render tick: `update_plot` (main2.py lines 152-174) -/

/-- The mutable matplotlib state touched by `update_plot`: the line's
y-data, the axes' y-limits and the title. -/
structure PlotState where
  ydata : List ℤ
  ylim : ℚ × ℚ
  title : String
deriving DecidableEq, Repr

/-- The initial plot state set up in `main` (main2.py lines 193-196). -/
def plotInit : PlotState :=
  { ydata := ecg_data_init
    ylim := (0, 4095)
    title := "Real-Time ECG Signal - Connecting..." }

/-- The auto-scaling block of `update_plot` (main2.py lines 159-166):
when the buffer is nonempty and `data_max > data_min`, set the y-limits
to `(data_min - margin, data_max + margin)` with
`margin = (data_max - data_min) * 0.1`; otherwise leave them as they
are. -/
def update_ylim (ecgData : List ℤ) (ps : PlotState) : PlotState :=
  if 0 < ecgData.length then
    let data_min := (ecgData.min?).getD 0
    let data_max := (ecgData.max?).getD 0
    if data_min < data_max then
      let margin : ℚ := ((data_max : ℚ) - (data_min : ℚ)) * (1 / 10)
      { ps with ylim := ((data_min : ℚ) - margin, (data_max : ℚ) + margin) }
    else ps
  else ps

/-- The title block of `update_plot` (main2.py lines 169-172).
`ecg_data[-1]` on an empty deque would raise an uncaught `IndexError`:
modelled as `none`; reachable only with an empty buffer and a connected
receiver. -/
def update_title (ecgData : List ℤ) (connected : Bool) (ps : PlotState) :
    Option PlotState :=
  if connected then
    match ecgData.getLast? with
    | some v =>
        some { ps with
          title := "Real-Time ECG Signal - Connected (Latest: " ++ toString v ++ ")" }
    | none => none
  else some { ps with title := "Real-Time ECG Signal - Disconnected" }

/-- `update_plot` (main2.py lines 152-174), over the `ecg_data` buffer,
the `ble_receiver.connected` flag and the plot state: set the line's
y-data (line 157), auto-scale the y-axis (lines 159-166), update the
title (lines 169-172).  The buffer is only read (`list(ecg_data)`,
`len`, `min`, `max`, `ecg_data[-1]`), so it is returned untouched. -/
def update_plot (ecgData : List ℤ) (connected : Bool) (ps : PlotState) :
    Option (List ℤ × PlotState) :=
  match update_title ecgData connected (update_ylim ecgData { ps with ydata := ecgData }) with
  | some ps3 => some (ecgData, ps3)
  | none => none

/-! ## Shutdown signal: `stop_event = threading.Event()` (main2.py
line 33), set in `on_close` (line 179), `main` (line 219) and the
top-level `KeyboardInterrupt` handler (line 232); queried with
`is_set()` (line 109).  No line of the program calls `clear()`. -/

/-- `threading.Event.set`. -/
def eventSet (_s : Bool) : Bool := true

/-- `threading.Event.is_set`. -/
def eventIsSet (s : Bool) : Bool := s

/-- The operations `main2.py` performs on `stop_event`: the only mutating
call anywhere in the program is `stop_event.set()`. -/
inductive StopOp where
  | set : StopOp
deriving DecidableEq, Repr

/-- Apply one program operation to the event's state. -/
def applyStopOp (s : Bool) : StopOp → Bool
  | .set => eventSet s

/-! ## Concrete signals used as witness inputs -/

/-- 100 samples: value 10 at indices 10 and 50, 0 elsewhere (two strict
local maxima above threshold). -/
def spikeData : List ℚ :=
  (List.range 100).map (fun i => if i = 10 ∨ i = 50 then 10 else 0)

/-- 100 samples with a single spike at index 10 (one peak only). -/
def singleSpikeData : List ℚ :=
  (List.range 100).map (fun i => if i = 10 then 10 else 0)

/-- Timestamps 0, 1, ..., 99. -/
def rampTimes : List ℚ := (List.range 100).map (fun i => (i : ℚ))

/-- 100 identical timestamps: every sample carries timestamp 0. -/
def zeroTimes : List ℚ := List.replicate 100 0

/-! ## Buffer lemmas -/

theorem length_takeLast (n : ℕ) (l : List α) :
    (takeLast n l).length = min n l.length := by
  simp [takeLast]; omega

theorem takeLast_of_le {n : ℕ} {l : List α} (h : l.length ≤ n) :
    takeLast n l = l := by
  simp [takeLast, Nat.sub_eq_zero_of_le h]

theorem takeLast_append_right {n : ℕ} (l xs : List α) (h : n ≤ xs.length) :
    takeLast n (l ++ xs) = takeLast n xs := by
  unfold takeLast
  rw [List.drop_append_eq_append_drop]
  rw [List.drop_eq_nil_of_le (by simp; omega)]
  simp only [List.nil_append, List.length_append]
  congr 1
  omega

theorem takeLast_takeLast_append (n : ℕ) (l xs : List α) :
    takeLast n (takeLast n l ++ xs) = takeLast n (l ++ xs) := by
  by_cases h : l.length ≤ n
  · rw [takeLast_of_le h]
  · have h2 : n ≤ (List.drop (l.length - n) l ++ xs).length := by
      simp [List.length_drop]; omega
    calc takeLast n (takeLast n l ++ xs)
        = takeLast n (List.drop (l.length - n) l ++ xs) := rfl
      _ = takeLast n (List.take (l.length - n) l ++ (List.drop (l.length - n) l ++ xs)) :=
          (takeLast_append_right _ _ h2).symm
      _ = takeLast n (l ++ xs) := by rw [← List.append_assoc, List.take_append_drop]

theorem foldl_dequeAppend (n : ℕ) (vals : List α) :
    ∀ init : List α, init.length ≤ n →
      vals.foldl (dequeAppend n) init = takeLast n (init ++ vals) := by
  induction vals with
  | nil => intro init h; simp [takeLast_of_le h]
  | cons x xs ih =>
    intro init h
    rw [List.foldl_cons]
    rw [ih (dequeAppend n init x) (by simp [dequeAppend, length_takeLast])]
    show takeLast n (takeLast n (init ++ [x]) ++ xs) = _
    rw [takeLast_takeLast_append]
    simp [List.append_assoc]

/-- C1: For every capacity `n` and every sequence of more than `n`
appended values, the buffer (a deque with `maxlen = n`, starting from
any contents within capacity) afterwards has length exactly `n` and
holds exactly the last `n` appended values in their original append
order; eviction is silent and `dequeAppend` is total, so append never
errors. -/
theorem dequeAppend_rolling_window (n : ℕ) (init vals : List ℤ)
    (hinit : init.length ≤ n) (hM : n < vals.length) :
    (vals.foldl (dequeAppend n) init).length = n ∧
      vals.foldl (dequeAppend n) init = vals.drop (vals.length - n) := by
  rw [foldl_dequeAppend n vals init hinit,
      takeLast_append_right init vals (le_of_lt hM)]
  exact ⟨by rw [length_takeLast]; omega, rfl⟩

/-- Witness for C1: capacity 2, appending the 3 values 5, 6, 7 to the
empty buffer leaves the buffer `[6, 7]`, of length 2. -/
theorem dequeAppend_rolling_window_witness :
    (([] : List ℤ).length ≤ 2) ∧ 2 < ([5, 6, 7] : List ℤ).length ∧
      (([5, 6, 7] : List ℤ).foldl (dequeAppend 2) []).length = 2 ∧
      ([5, 6, 7] : List ℤ).foldl (dequeAppend 2) [] =
        [5, 6, 7].drop ([5, 6, 7].length - 2) :=
  ⟨by decide, by decide,
    (dequeAppend_rolling_window 2 [] [5, 6, 7] (by decide) (by decide)).1,
    (dequeAppend_rolling_window 2 [] [5, 6, 7] (by decide) (by decide)).2⟩

/-! ## Shutdown signal (C7) -/

/-- C7: The shutdown signal is idempotent — setting it twice yields the
same state as setting it once — and single-fire: the only operation the
program ever applies to `stop_event` is `set()`, so once it reads as set
it stays set under every sequence of program operations (nothing ever
clears it). -/
theorem stop_event_idempotent_monotone :
    (∀ s : Bool, eventSet (eventSet s) = eventSet s) ∧
      (∀ (ops : List StopOp) (s : Bool),
        eventIsSet s = true → eventIsSet (ops.foldl applyStopOp s) = true) := by
  refine ⟨fun s => rfl, ?_⟩
  intro ops
  induction ops with
  | nil => intro s h; exact h
  | cons op rest ih =>
    intro s h
    cases op
    exact ih (eventSet s) rfl

/-- Witness for C7: a set event stays set across one further `set()`. -/
theorem stop_event_idempotent_monotone_witness :
    eventIsSet true = true ∧
      eventIsSet ([StopOp.set].foldl applyStopOp true) = true :=
  ⟨by decide, stop_event_idempotent_monotone.2 [StopOp.set] true (by decide)⟩

/-! ## Scan / session start (C6) -/

theorem scan_none (ds : List Device) :
    (∀ x ∈ ds, nameMatches x = false) → scan_for_esp32 ds = none := by
  induction ds with
  | nil => intro _; rfl
  | cons p ps ih =>
    intro h
    have hp : nameMatches p = false := h p (by simp)
    simp only [scan_for_esp32, hp, Bool.false_eq_true, if_false]
    exact ih (fun x hx => h x (by simp [hx]))

theorem scan_first (pre : List Device) (d : Device) (post : List Device) :
    (∀ x ∈ pre, nameMatches x = false) → nameMatches d = true →
      scan_for_esp32 (pre ++ d :: post) = some d := by
  induction pre with
  | nil => intro _ hd; simp [scan_for_esp32, hd]
  | cons p ps ih =>
    intro h hd
    have hp : nameMatches p = false := h p (by simp)
    simp only [List.cons_append, scan_for_esp32, hp, Bool.false_eq_true, if_false]
    exact ih (fun x hx => h x (by simp [hx])) hd

/-- C6: the scan selects exactly the first record in discovery order
whose name matches the target filter, and the session then proceeds
toward connecting; when no record matches, the scan returns `None` and
the session ends failed without ever attempting a connection. -/
theorem scan_first_match_or_failed :
    (∀ (pre : List Device) (d : Device) (post : List Device),
        (∀ x ∈ pre, nameMatches x = false) → nameMatches d = true →
          scan_for_esp32 (pre ++ d :: post) = some d ∧
            sessionAfterScan (pre ++ d :: post) = .connecting d) ∧
      (∀ devices : List Device,
        (∀ x ∈ devices, nameMatches x = false) →
          scan_for_esp32 devices = none ∧ sessionAfterScan devices = .failed) := by
  constructor
  · intro pre d post hpre hd
    have hscan := scan_first pre d post hpre hd
    exact ⟨hscan, by simp [sessionAfterScan, hscan]⟩
  · intro devices h
    have hscan := scan_none devices h
    exact ⟨hscan, by simp [sessionAfterScan, hscan]⟩

/-- Witness for C6: with two non-matching records before a matching one
the third record is selected; with only non-matching records the session
fails. -/
theorem scan_first_match_or_failed_witness :
    (∀ x ∈ [Device.mk none "aa", Device.mk (some "Phone") "bb"], nameMatches x = false) ∧
      nameMatches (Device.mk (some "ESP32-dev") "cc") = true ∧
      scan_for_esp32 [Device.mk none "aa", Device.mk (some "Phone") "bb",
        Device.mk (some "ESP32-dev") "cc", Device.mk (some "ESP32") "dd"] =
        some (Device.mk (some "ESP32-dev") "cc") ∧
      sessionAfterScan [Device.mk none "aa", Device.mk (some "Phone") "bb",
        Device.mk (some "ESP32-dev") "cc", Device.mk (some "ESP32") "dd"] =
        .connecting (Device.mk (some "ESP32-dev") "cc") ∧
      scan_for_esp32 [Device.mk (some "Phone") "bb"] = none ∧
      sessionAfterScan [Device.mk (some "Phone") "bb"] = .failed :=
  ⟨by decide, by decide,
    (scan_first_match_or_failed.1
      [Device.mk none "aa", Device.mk (some "Phone") "bb"]
      (Device.mk (some "ESP32-dev") "cc")
      [Device.mk (some "ESP32") "dd"] (by decide) (by decide)).1,
    (scan_first_match_or_failed.1
      [Device.mk none "aa", Device.mk (some "Phone") "bb"]
      (Device.mk (some "ESP32-dev") "cc")
      [Device.mk (some "ESP32") "dd"] (by decide) (by decide)).2,
    (scan_first_match_or_failed.2 [Device.mk (some "Phone") "bb"] (by decide)).1,
    (scan_first_match_or_failed.2 [Device.mk (some "Phone") "bb"] (by decide)).2⟩

/-! ## Notification handler (C5) -/

/-- C5: the handler appends the decoded value exactly when the payload
parses as a valid numeric sample — the stripped message passes
`isdigit()` and `int()` assigns it a value.  Every other payload leaves
the buffer unchanged: an undecodable one (`none`), a non-digit message,
and a digit-class message on which `int()` raises `ValueError` (caught
by the handler's `except`).  The handler is a total function — no
exception ever reaches the caller, so the streaming session is never
terminated by a malformed sample. -/
theorem notification_handler_filtering :
    (∀ buf : List ℤ, notification_handler buf none = buf) ∧
      (∀ (buf : List ℤ) (s : String), pyIsDigit (pyStrip s) = false →
        notification_handler buf (some s) = buf) ∧
      (∀ (buf : List ℤ) (s : String), pyIsDigit (pyStrip s) = true →
        pyInt? (pyStrip s) = none →
        notification_handler buf (some s) = buf) ∧
      (∀ (buf : List ℤ) (s : String) (v : ℕ), pyIsDigit (pyStrip s) = true →
        pyInt? (pyStrip s) = some v →
        notification_handler buf (some s) = dequeAppend MAX_POINTS buf (v : ℤ)) := by
  refine ⟨fun buf => rfl, ?_, ?_, ?_⟩
  · intro buf s h
    simp [notification_handler, h]
  · intro buf s h hv
    simp [notification_handler, h, hv]
  · intro buf s v h hv
    simp [notification_handler, h, hv]

/-- The payload `"\x0c42\x0c"`: form feeds around ASCII digits.  Python
strips the form feeds and appends 42. -/
def payloadFormFeed : String := String.mk [Char.ofNat 0xC, '4', '2', Char.ofNat 0xC]

/-- The payload `"٤٢"` (Arabic-Indic four and two, `U+0664 U+0662`):
`isdigit()` holds and `int()` parses it as 42. -/
def payloadArabicIndic : String := String.mk [Char.ofNat 0x664, Char.ofNat 0x662]

/-- The payload `"²"` (superscript two, `U+00B2`): `isdigit()` holds but
`int()` raises `ValueError`, which the handler catches. -/
def payloadSuperscript : String := String.mk [Char.ofNat 0xB2]

/-- Witness for C5: `"hello"` is dropped; a form-feed-wrapped `"42"` and
the Arabic-Indic `"٤٢"` are both appended as 42; the superscript `"²"`
passes `isdigit()` but fails `int()` and is dropped. -/
theorem notification_handler_filtering_witness :
    (pyIsDigit (pyStrip "hello") = false ∧
        notification_handler [1, 2] (some "hello") = [1, 2]) ∧
      (pyIsDigit (pyStrip payloadFormFeed) = true ∧
        pyInt? (pyStrip payloadFormFeed) = some 42 ∧
        notification_handler [1, 2] (some payloadFormFeed) =
          dequeAppend MAX_POINTS [1, 2] ((42 : ℕ) : ℤ)) ∧
      (pyIsDigit (pyStrip payloadArabicIndic) = true ∧
        pyInt? (pyStrip payloadArabicIndic) = some 42 ∧
        notification_handler [1, 2] (some payloadArabicIndic) =
          dequeAppend MAX_POINTS [1, 2] ((42 : ℕ) : ℤ)) ∧
      (pyIsDigit (pyStrip payloadSuperscript) = true ∧
        pyInt? (pyStrip payloadSuperscript) = none ∧
        notification_handler [1, 2] (some payloadSuperscript) = [1, 2]) :=
  ⟨⟨by decide, notification_handler_filtering.2.1 [1, 2] "hello" (by decide)⟩,
    ⟨by decide, by decide,
      notification_handler_filtering.2.2.2 [1, 2] payloadFormFeed 42
        (by decide) (by decide)⟩,
    ⟨by decide, by decide,
      notification_handler_filtering.2.2.2 [1, 2] payloadArabicIndic 42
        (by decide) (by decide)⟩,
    ⟨by decide, by decide,
      notification_handler_filtering.2.2.1 [1, 2] payloadSuperscript
        (by decide) (by decide)⟩⟩

/-! ## Render tick (C8, C9, C10) -/

theorem update_title_ylim {e : List ℤ} {c : Bool} {ps ps' : PlotState}
    (h : update_title e c ps = some ps') : ps'.ylim = ps.ylim := by
  cases c with
  | false =>
    simp only [update_title, Bool.false_eq_true, if_false, Option.some.injEq] at h
    rw [← h]
  | true =>
    simp only [update_title, if_true] at h
    cases hl : e.getLast? with
    | none => rw [hl] at h; simp at h
    | some v =>
      rw [hl] at h
      simp only [Option.some.injEq] at h
      rw [← h]

theorem update_title_some (e : List ℤ) (c : Bool) (ps : PlotState) (hne : e ≠ []) :
    ∃ ps', update_title e c ps = some ps' := by
  cases c with
  | false => exact ⟨_, rfl⟩
  | true =>
    have hs := List.getLast?_isSome.mpr hne
    cases hl : e.getLast? with
    | none => rw [hl] at hs; simp at hs
    | some v =>
      exact ⟨{ ps with title :=
          "Real-Time ECG Signal - Connected (Latest: " ++ toString v ++ ")" },
        by simp [update_title, hl]⟩

/-- C8: the render tick and the rate estimator are read-only consumers
of the sample buffer — a completed `update_plot` tick hands back the
buffer unchanged, and the estimator call passes the data through
untouched — while the notification handler genuinely can mutate the
buffer (it is the sole writer in the pipeline model). -/
theorem buffer_readers_frame :
    (∀ (buf : List ℤ) (c : Bool) (ps : PlotState) (r : List ℤ × PlotState),
        update_plot buf c ps = some r → r.1 = buf) ∧
      (∀ st : List ℚ × List ℚ, (estimatorTick st).1 = st) ∧
      (∃ (buf : List ℤ) (p : Option String), notification_handler buf p ≠ buf) := by
  refine ⟨?_, fun st => rfl, ⟨[], some "5", by decide⟩⟩
  intro buf c ps r h
  unfold update_plot at h
  cases ht : update_title buf c (update_ylim buf { ps with ydata := buf }) with
  | none => rw [ht] at h; simp at h
  | some ps3 =>
    rw [ht] at h
    simp only [Option.some.injEq] at h
    rw [← h]

/-- The concrete result of the render tick used in the C8 witness. -/
def tickResultConn : List ℤ × PlotState :=
  ([3, 4], { ydata := [3, 4], ylim := (29 / 10, 41 / 10),
             title := "Real-Time ECG Signal - Connected (Latest: 4)" })

/-- Witness for C8: one concrete connected tick over the buffer `[3, 4]`
returns the buffer unchanged. -/
theorem buffer_readers_frame_witness :
    update_plot [3, 4] true plotInit = some tickResultConn ∧
      tickResultConn.1 = [3, 4] :=
  ⟨by decide, buffer_readers_frame.1 [3, 4] true plotInit tickResultConn (by decide)⟩

/-- C9: on a render tick over a nonempty buffer the y-range is set to
`[min − m, max + m]` with margin `m = (max − min) · 0.1` whenever
`max > min`; over flat data (`max ≤ min`) the previously set range is
left unchanged. -/
theorem update_plot_ylim_scaling (buf : List ℤ) (c : Bool) (ps : PlotState)
    (r : List ℤ × PlotState) (h : update_plot buf c ps = some r) (hne : buf ≠ []) :
    ((buf.min?).getD 0 < (buf.max?).getD 0 →
      r.2.ylim =
        (((buf.min?).getD 0 : ℚ) -
            (((buf.max?).getD 0 : ℚ) - ((buf.min?).getD 0 : ℚ)) * (1 / 10),
          ((buf.max?).getD 0 : ℚ) +
            (((buf.max?).getD 0 : ℚ) - ((buf.min?).getD 0 : ℚ)) * (1 / 10))) ∧
      (¬ (buf.min?).getD 0 < (buf.max?).getD 0 → r.2.ylim = ps.ylim) := by
  have hlen : 0 < buf.length := List.length_pos.mpr hne
  unfold update_plot at h
  cases ht : update_title buf c (update_ylim buf { ps with ydata := buf }) with
  | none => rw [ht] at h; simp at h
  | some ps3 =>
    rw [ht] at h
    simp only [Option.some.injEq] at h
    have hy : r.2.ylim = (update_ylim buf { ps with ydata := buf }).ylim := by
      rw [← h]
      exact update_title_ylim ht
    rw [hy]
    unfold update_ylim
    rw [if_pos hlen]
    by_cases hmm : (buf.min?).getD 0 < (buf.max?).getD 0
    · rw [if_pos hmm]
      exact ⟨fun _ => rfl, fun hc => absurd hmm hc⟩
    · rw [if_neg hmm]
      exact ⟨fun hc => absurd hc hmm, fun _ => rfl⟩

/-- The concrete result of the render tick used in the C9 witness. -/
def tickResultDisc : List ℤ × PlotState :=
  ([3, 4], { ydata := [3, 4], ylim := (29 / 10, 41 / 10),
             title := "Real-Time ECG Signal - Disconnected" })

/-- Witness for C9: over the buffer `[3, 4]` (min 3 < max 4) the range
becomes `[3 − 1/10, 4 + 1/10]`. -/
theorem update_plot_ylim_scaling_witness :
    update_plot [3, 4] false plotInit = some tickResultDisc ∧
      (([3, 4] : List ℤ) ≠ []) ∧
      ((([3, 4] : List ℤ).min?).getD 0 < (([3, 4] : List ℤ).max?).getD 0 →
        tickResultDisc.2.ylim =
          (((([3, 4] : List ℤ).min?).getD 0 : ℚ) -
              (((([3, 4] : List ℤ).max?).getD 0 : ℚ) -
                ((([3, 4] : List ℤ).min?).getD 0 : ℚ)) * (1 / 10),
            ((([3, 4] : List ℤ).max?).getD 0 : ℚ) +
              (((([3, 4] : List ℤ).max?).getD 0 : ℚ) -
                ((([3, 4] : List ℤ).min?).getD 0 : ℚ)) * (1 / 10))) :=
  ⟨by decide, by decide,
    (update_plot_ylim_scaling [3, 4] false plotInit tickResultDisc
      (by decide) (by decide)).1⟩

theorem notification_handler_length (buf : List ℤ) (p : Option String)
    (h : buf.length = MAX_POINTS) :
    (notification_handler buf p).length = MAX_POINTS := by
  cases p with
  | none => exact h
  | some s =>
    by_cases hd : pyIsDigit (pyStrip s) = true
    · cases hv : pyInt? (pyStrip s) with
      | none =>
        simp only [notification_handler, hd, if_true, hv]
        exact h
      | some v =>
        simp only [notification_handler, hd, if_true, hv, dequeAppend, length_takeLast]
        simp only [List.length_append, List.length_singleton, h]
        omega
    · simp only [notification_handler, Bool.not_eq_true] at hd ⊢
      rw [hd]
      exact h

/-- C10: starting from the zero-prefilled `ecg_data` deque, after any
sequence of notification payloads the buffer length is always exactly
`MAX_POINTS` (never less), its most recent element is always defined,
and the render tick (which reads `ecg_data[-1]` in its title) always
completes — the initial zero padding makes every latest-value access
total from process start onward. -/
theorem ecg_data_prefilled_invariant (payloads : List (Option String)) :
    (payloads.foldl notification_handler ecg_data_init).length = MAX_POINTS ∧
      (∃ v, (payloads.foldl notification_handler ecg_data_init).getLast? = some v) ∧
      (∀ (c : Bool) (ps : PlotState), ∃ r,
        update_plot (payloads.foldl notification_handler ecg_data_init) c ps = some r) := by
  have hlen : ∀ (l : List (Option String)) (buf : List ℤ), buf.length = MAX_POINTS →
      (l.foldl notification_handler buf).length = MAX_POINTS := by
    intro l
    induction l with
    | nil => intro buf h; exact h
    | cons p rest ih =>
      intro buf h
      exact ih _ (notification_handler_length buf p h)
  have h1 : (payloads.foldl notification_handler ecg_data_init).length = MAX_POINTS :=
    hlen payloads ecg_data_init (by simp [ecg_data_init])
  have hne : payloads.foldl notification_handler ecg_data_init ≠ [] := by
    intro hE
    rw [hE] at h1
    simp [MAX_POINTS, SAMPLING_RATE, WINDOW_SECONDS] at h1
  refine ⟨h1, ?_, ?_⟩
  · have hs := List.getLast?_isSome.mpr hne
    cases hv : (payloads.foldl notification_handler ecg_data_init).getLast? with
    | none => rw [hv] at hs; simp at hs
    | some v => exact ⟨v, rfl⟩
  · intro c ps
    obtain ⟨ps', hps'⟩ := update_title_some
      (payloads.foldl notification_handler ecg_data_init) c
      (update_ylim (payloads.foldl notification_handler ecg_data_init)
        { ps with ydata := payloads.foldl notification_handler ecg_data_init }) hne
    exact ⟨_, by unfold update_plot; rw [hps']⟩

/-! ## Peak/rate estimator lemmas (C2, C3, C4) -/

theorem npVar_nonneg (l : List ℚ) : 0 ≤ npVar l := by
  unfold npVar
  apply div_nonneg
  · apply List.sum_nonneg
    intro x hx
    simp only [List.mem_map] at hx
    obtain ⟨y, _, rfl⟩ := hx
    positivity
  · exact Nat.cast_nonneg _

theorem npDiff_length (l : List ℚ) : (npDiff l).length = l.length - 1 := by
  simp [npDiff, List.length_zipWith, List.length_tail]

/-- The rational peak test of `isPeak` agrees with the source's
floating-point formulation `data[i] > mean + 0.5 * std` where
`std = sqrt variance`, read over `ℝ`. -/
theorem peak_threshold_iff (data : List ℚ) (i : ℕ) :
    (0 < data.getD i 0 - npMean data ∧
        npVar data < 4 * (data.getD i 0 - npMean data) ^ 2) ↔
      (npMean data : ℝ) + (1 / 2) * Real.sqrt ((npVar data : ℝ)) <
        (data.getD i 0 : ℝ) := by
  have hv : (0:ℝ) ≤ ((npVar data : ℚ) : ℝ) := by
    exact_mod_cast npVar_nonneg data
  have hs0 : 0 ≤ Real.sqrt ((npVar data : ℚ) : ℝ) := Real.sqrt_nonneg _
  constructor
  · rintro ⟨h1, h2⟩
    have h1' : (0:ℝ) < (data.getD i 0 : ℝ) - (npMean data : ℝ) := by
      exact_mod_cast h1
    have h2' : ((npVar data : ℚ) : ℝ) <
        4 * ((data.getD i 0 : ℝ) - (npMean data : ℝ)) ^ 2 := by
      exact_mod_cast h2
    have h2d : (0:ℝ) < 2 * ((data.getD i 0 : ℝ) - (npMean data : ℝ)) := by linarith
    have hsq : Real.sqrt ((npVar data : ℚ) : ℝ) <
        2 * ((data.getD i 0 : ℝ) - (npMean data : ℝ)) :=
      (Real.sqrt_lt' h2d).mpr (by nlinarith)
    linarith
  · intro h
    have hd : (0:ℝ) < (data.getD i 0 : ℝ) - (npMean data : ℝ) := by linarith
    have h2d : (0:ℝ) < 2 * ((data.getD i 0 : ℝ) - (npMean data : ℝ)) := by linarith
    have hsq : Real.sqrt ((npVar data : ℚ) : ℝ) <
        2 * ((data.getD i 0 : ℝ) - (npMean data : ℝ)) := by linarith
    have hlt := (Real.sqrt_lt' h2d).mp hsq
    constructor
    · exact_mod_cast hd
    · have h4 : ((npVar data : ℚ) : ℝ) <
          4 * ((data.getD i 0 : ℝ) - (npMean data : ℝ)) ^ 2 := by nlinarith
      exact_mod_cast h4

/-- Membership in the collected peak-index list, characterised by the
spec's wording: index in `[1, len-2]`, value strictly above
`mean + 0.5·std`, and strictly above both neighbours. -/
theorem mem_peakIndices (data : List ℚ) (i : ℕ) :
    i ∈ peakIndices data ↔
      1 ≤ i ∧ i + 2 ≤ data.length ∧
        ((npMean data : ℝ) + (1 / 2) * Real.sqrt ((npVar data : ℝ)) <
            (data.getD i 0 : ℝ) ∧
          data.getD (i - 1) 0 < data.getD i 0 ∧
          data.getD (i + 1) 0 < data.getD i 0) := by
  unfold peakIndices
  simp only [List.mem_filter, List.mem_range'_1]
  rw [show (isPeak (npMean data) (npVar data) data i = true) ↔
      (0 < data.getD i 0 - npMean data ∧
        npVar data < 4 * (data.getD i 0 - npMean data) ^ 2 ∧
        data.getD (i - 1) 0 < data.getD i 0 ∧
        data.getD (i + 1) 0 < data.getD i 0) from by
    simp [isPeak, Bool.and_eq_true, decide_eq_true_eq, and_assoc]]
  rw [show (0 < data.getD i 0 - npMean data ∧
        npVar data < 4 * (data.getD i 0 - npMean data) ^ 2 ∧
        data.getD (i - 1) 0 < data.getD i 0 ∧
        data.getD (i + 1) 0 < data.getD i 0) ↔
      ((npMean data : ℝ) + (1 / 2) * Real.sqrt ((npVar data : ℝ)) <
          (data.getD i 0 : ℝ) ∧
        data.getD (i - 1) 0 < data.getD i 0 ∧
        data.getD (i + 1) 0 < data.getD i 0) from by
    rw [← and_assoc, peak_threshold_iff]]
  constructor
  · rintro ⟨⟨h1, h2⟩, h3⟩
    exact ⟨h1, by omega, h3⟩
  · rintro ⟨h1, h2, h3⟩
    exact ⟨⟨h1, by omega⟩, h3⟩

theorem getD_replicate {n i : ℕ} {c : ℚ} (h : i < n) :
    (List.replicate n c).getD i 0 = c := by
  simp [List.getD, List.getElem?_replicate, h]

theorem peakIndices_replicate (n : ℕ) (c : ℚ) :
    peakIndices (List.replicate n c) = [] := by
  unfold peakIndices
  apply List.filter_eq_nil_iff.mpr
  intro i hi
  rw [List.mem_range'_1, List.length_replicate] at hi
  have h1 : (List.replicate n c).getD i 0 = c := getD_replicate (by omega)
  have h2 : (List.replicate n c).getD (i - 1) 0 = c := getD_replicate (by omega)
  simp only [isPeak, Bool.and_eq_true, decide_eq_true_eq]
  rw [h1, h2]
  simp

/-- C2: a sample at index `i` (`1 ≤ i ≤ len-2`) counts as a peak iff its
value strictly exceeds the threshold `mean + 0.5·std` and both immediate
neighbours; and for every input of at least 100 samples in which at
least 2 peaks are detected (and the mean inter-peak interval is nonzero,
so the claimed quotient exists — the zero case is claim C4's subject),
the estimator returns `int(60 / mean-interval)`, i.e. `60` divided by
the arithmetic mean of the consecutive inter-peak intervals, truncated
toward zero. -/
theorem calculate_heart_rate_formula :
    (∀ (data : List ℚ) (i : ℕ),
        i ∈ peakIndices data ↔
          1 ≤ i ∧ i + 2 ≤ data.length ∧
            ((npMean data : ℝ) + (1 / 2) * Real.sqrt ((npVar data : ℝ)) <
                (data.getD i 0 : ℝ) ∧
              data.getD (i - 1) 0 < data.getD i 0 ∧
              data.getD (i + 1) 0 < data.getD i 0)) ∧
      (∀ (data times : List ℚ), 100 ≤ data.length →
        2 ≤ (peakTimes data times).length →
        npMean (npDiff (peakTimes data times)) ≠ 0 →
        calculate_heart_rate data times =
          .bpm (truncQ (60 / npMean (npDiff (peakTimes data times))))) := by
  refine ⟨mem_peakIndices, ?_⟩
  intro data times h100 hpk havg
  have hn : ¬ data.length < 100 := by omega
  have hil : 0 < (npDiff (peakTimes data times)).length := by
    rw [npDiff_length]; omega
  simp only [calculate_heart_rate, hn, if_false, ge_iff_le, hpk, if_true, gt_iff_lt, hil]
  rw [if_neg havg]

/-- Witness for C2: the two-spike signal with ramp timestamps has peaks
at times 10 and 50, mean interval 40, and the estimator returns
`int(60/40) = 1`. -/
theorem calculate_heart_rate_formula_witness :
    100 ≤ spikeData.length ∧ 2 ≤ (peakTimes spikeData rampTimes).length ∧
      npMean (npDiff (peakTimes spikeData rampTimes)) ≠ 0 ∧
      calculate_heart_rate spikeData rampTimes =
        .bpm (truncQ (60 / npMean (npDiff (peakTimes spikeData rampTimes)))) :=
  ⟨by decide, by decide, by decide,
    calculate_heart_rate_formula.2 spikeData rampTimes (by decide) (by decide) (by decide)⟩

/-- C3: the estimator returns `None` (no confidence, no rate) for every
input of fewer than 100 samples, for every input in which fewer than 2
peaks are detected, and for every constant (flat) signal — there the
threshold equals the mean and the strict local-maximum test admits no
peak. -/
theorem calculate_heart_rate_no_confidence :
    (∀ data times : List ℚ, data.length < 100 →
        calculate_heart_rate data times = .noRate) ∧
      (∀ data times : List ℚ, (peakTimes data times).length < 2 →
        calculate_heart_rate data times = .noRate) ∧
      (∀ (n : ℕ) (c : ℚ) (times : List ℚ),
        calculate_heart_rate (List.replicate n c) times = .noRate) := by
  have hshort : ∀ data times : List ℚ, data.length < 100 →
      calculate_heart_rate data times = .noRate := by
    intro data times h
    simp [calculate_heart_rate, h]
  have hfew : ∀ data times : List ℚ, (peakTimes data times).length < 2 →
      calculate_heart_rate data times = .noRate := by
    intro data times h
    by_cases h100 : data.length < 100
    · exact hshort data times h100
    · have h2 : ¬ (peakTimes data times).length ≥ 2 := by omega
      simp [calculate_heart_rate, h100, h2]
  refine ⟨hshort, hfew, ?_⟩
  intro n c times
  apply hfew
  simp [peakTimes, peakIndices_replicate]

/-- Witness for C3: 50 samples are too few; a single-spike signal has
only one peak; a constant signal of 100 samples yields no rate. -/
theorem calculate_heart_rate_no_confidence_witness :
    (List.replicate 50 (1:ℚ)).length < 100 ∧
      calculate_heart_rate (List.replicate 50 1) rampTimes = .noRate ∧
      (peakTimes singleSpikeData rampTimes).length < 2 ∧
      calculate_heart_rate singleSpikeData rampTimes = .noRate ∧
      calculate_heart_rate (List.replicate 100 (5:ℚ)) zeroTimes = .noRate :=
  ⟨by decide, calculate_heart_rate_no_confidence.1 (List.replicate 50 1) rampTimes (by decide),
    by decide, calculate_heart_rate_no_confidence.2.1 singleSpikeData rampTimes (by decide),
    calculate_heart_rate_no_confidence.2.2 100 5 zeroTimes⟩

/-- C4 (code bug): on the concrete 100-sample signal with two detected
peaks whose timestamps coincide, the mean inter-peak interval is 0, and
`calculate_heart_rate` neither guards the division nor returns a
no-confidence result: `60.0 / 0.0` produces `inf` and `int(inf)` raises
an uncaught `OverflowError` (modelled as `.raised`).  The guard the spec
requires ("treat as confidence=false") is absent from the code. -/
theorem calculate_heart_rate_div_zero_raises :
    2 ≤ (peakTimes spikeData zeroTimes).length ∧
      npMean (npDiff (peakTimes spikeData zeroTimes)) = 0 ∧
      calculate_heart_rate spikeData zeroTimes = .raised :=
  ⟨by decide, by decide, by decide⟩

end BLE
